import Mathlib

/-!
Shallow embedding of the `POST /create-checkout-session` handler of
`server/server.js` (the backend of the Stripe local fullstack demo),
together with theorems about its validation, descriptor construction
and error-propagation behaviour.
-/

/-- A JavaScript value as it can occur for a field of a parsed JSON request
body; `undef` stands for an absent field (JavaScript `undefined`).  Numbers
are modelled as rationals. -/
inductive JSValue where
  | undef
  | null
  | bool (b : Bool)
  | num (q : ℚ)
  | str (s : String)
  deriving DecidableEq, Repr

/-- JavaScript `Number.isInteger(v)`: true exactly when `v` is a number with
no fractional part. -/
def jsIsInteger : JSValue → Bool
  | .num q => q.den == 1
  | _ => false

/-- JavaScript `String(v)` coercion.  JavaScript decimal formatting of
non-integer numbers is approximated by printing the rational; it is exact on
integers, strings, `null`, `undefined` and booleans, which is all the
handler ever produces in the claims considered here. -/
def jsToString : JSValue → String
  | .undef => "undefined"
  | .null => "null"
  | .bool b => if b then "true" else "false"
  | .num q => if q.den == 1 then toString q.num else toString q
  | .str s => s

/-- Default substitution as performed by the destructuring
`const { price = 1500, quantity = 1, name = 'Test Product' } = req.body || {}`:
the default value applies exactly when the field is `undefined` (absent);
any other value, including `null`, is kept. -/
def applyDefault (v d : JSValue) : JSValue :=
  if v = JSValue.undef then d else v

/-- The fields of the JSON request body that the handler reads. -/
structure RequestBody where
  price : JSValue
  quantity : JSValue
  name : JSValue
  deriving DecidableEq, Repr

/-- The part of the server configuration the handler uses:
`YOUR_DOMAIN = process.env.FRONTEND_URL || 'http://localhost:3000'`. -/
structure Config where
  frontendBaseUrl : String
  deriving DecidableEq, Repr

/-- The `product_data` object of the line item. -/
structure ProductData where
  name : String
  deriving DecidableEq, Repr

/-- The `price_data` object of the line item. -/
structure PriceData where
  currency : String
  product_data : ProductData
  unit_amount : JSValue
  deriving DecidableEq, Repr

/-- One entry of `line_items`. -/
structure LineItem where
  price_data : PriceData
  quantity : JSValue
  deriving DecidableEq, Repr

/-- The argument object passed to `stripe.checkout.sessions.create`. -/
structure SessionDescriptor where
  mode : String
  payment_method_types : List String
  line_items : List LineItem
  success_url : String
  cancel_url : String
  deriving DecidableEq, Repr

/-- What the provider returns on success: an object exposing a `url` field. -/
structure ProviderSession where
  url : String
  deriving DecidableEq, Repr

/-- A provider-side error; `message` is `err.message`. -/
structure ProviderError where
  message : String
  deriving DecidableEq, Repr

/-- The external provider session-creation call, abstracted as a function
from the descriptor to either a session or an error. -/
abbrev Provider := SessionDescriptor → Except ProviderError ProviderSession

/-- The HTTP outcome of the handler: `success url` is `200 {url}`, and
`failure s e` is `res.status(s).json({error: e})`. -/
inductive SessionResult where
  | success (url : String)
  | failure (status : Nat) (error : String)
  deriving DecidableEq, Repr

/-- The guard `!Number.isInteger(price) || price <= 0`.  The first disjunct
short-circuits for every non-number, so `price <= 0` is only ever evaluated
on a number, where it is the numeric comparison; the non-number arm of the
match below is therefore never reached (its value is irrelevant). -/
def priceCheckFails (p : JSValue) : Bool :=
  !jsIsInteger p ||
    (match p with
     | .num q => decide (q ≤ 0)
     | _ => true)

/-- The descriptor built by the handler and handed to
`stripe.checkout.sessions.create`, field for field. -/
def buildDescriptor (config : Config) (price quantity name : JSValue) :
    SessionDescriptor :=
  { mode := "payment"
    payment_method_types := ["card"]
    line_items := [{
      price_data := {
        currency := "eur"
        product_data := { name := jsToString name }
        unit_amount := price }
      quantity := quantity }]
    success_url :=
      config.frontendBaseUrl ++ "/success?session_id=\x7bCHECKOUT_SESSION_ID\x7d"
    cancel_url := config.frontendBaseUrl ++ "/cancelled" }

/-- The body of `app.post('/create-checkout-session')`: default
substitution, price validation, descriptor construction, the provider call,
and the mapping of its outcome (or error) to an HTTP result.  The second
component of the result records the descriptors actually sent to the
provider, so that the number of provider calls is observable. -/
def createSession (provider : Provider) (config : Config)
    (body : Option RequestBody) : SessionResult × List SessionDescriptor :=
  let b := body.getD ⟨.undef, .undef, .undef⟩
  let price := applyDefault b.price (.num 1500)
  let quantity := applyDefault b.quantity (.num 1)
  let name := applyDefault b.name (.str "Test Product")
  if priceCheckFails price then
    (.failure 400 "price must be a positive integer (in cents)", [])
  else
    let descriptor := buildDescriptor config price quantity name
    match provider descriptor with
    | .ok session => (.success session.url, [descriptor])
    | .error e => (.failure 500 e.message, [descriptor])

/-- A provider stub that always succeeds with the given URL. -/
def providerOk (u : String) : Provider := fun _ => .ok ⟨u⟩

/-- A provider stub that always rejects with the given message. -/
def providerErr (m : String) : Provider := fun _ => .error ⟨m⟩

/-- A concrete configuration for closed test instances. -/
def testConfig : Config := ⟨"http://localhost:3000"⟩

/-- C1: for every input whose price (after default substitution) fails the
check — non-integer, zero, negative, or non-numeric — the handler returns the
400 validation failure with the exact message
"price must be a positive integer (in cents)" and performs zero provider
calls (the recorded call list is empty). -/
theorem validation_failure_short_circuits_provider (provider : Provider)
    (config : Config) (b : RequestBody)
    (h : priceCheckFails (applyDefault b.price (.num 1500)) = true) :
    createSession provider config (some b) =
      (.failure 400 "price must be a positive integer (in cents)", []) := by
  simp [createSession, h]

/-- Witness for C1 at the concrete non-integer price `"ten"`, against a
provider stub that would reject: the stub is never consulted. -/
theorem validation_failure_short_circuits_provider_witness :
    priceCheckFails (applyDefault (JSValue.str "ten") (.num 1500)) = true ∧
    createSession (providerErr "boom") testConfig
        (some ⟨.str "ten", .undef, .undef⟩) =
      (.failure 400 "price must be a positive integer (in cents)", []) :=
  ⟨by decide,
   validation_failure_short_circuits_provider (providerErr "boom") testConfig
     ⟨.str "ten", .undef, .undef⟩ (by decide)⟩

/-- C2: whenever the price check passes and the provider call rejects with
error `e`, the handler returns a failure with HTTP status 500 and the
provider's message passed through verbatim. -/
theorem provider_error_maps_to_500_verbatim (provider : Provider)
    (config : Config) (b : RequestBody) (e : ProviderError)
    (h : priceCheckFails (applyDefault b.price (.num 1500)) = false)
    (hp : provider (buildDescriptor config (applyDefault b.price (.num 1500))
            (applyDefault b.quantity (.num 1))
            (applyDefault b.name (.str "Test Product"))) = .error e) :
    (createSession provider config (some b)).1 = .failure 500 e.message := by
  simp [createSession, h, hp]

/-- Witness for C2: a provider stub rejecting with message "auth failed"
yields status 500 and message "auth failed" exactly. -/
theorem provider_error_maps_to_500_verbatim_witness :
    priceCheckFails (applyDefault JSValue.undef (.num 1500)) = false ∧
    (createSession (providerErr "auth failed") testConfig
        (some ⟨.undef, .undef, .undef⟩)).1 = .failure 500 "auth failed" :=
  ⟨by decide,
   provider_error_maps_to_500_verbatim (providerErr "auth failed") testConfig
     ⟨.undef, .undef, .undef⟩ ⟨"auth failed"⟩ (by decide) rfl⟩

/-- C3: for every valid input the provider receives exactly one descriptor,
with one line item carrying the hardcoded currency "eur", unit amount equal
to the validated price, the given quantity, the coerced name as product
display name, one-time payment mode, and success/cancel URLs built from the
configured frontend base URL (the success URL containing the provider-filled
session-id placeholder). -/
theorem descriptor_shape_for_valid_input (provider : Provider)
    (config : Config) (b : RequestBody)
    (h : priceCheckFails (applyDefault b.price (.num 1500)) = false) :
    (createSession provider config (some b)).2 =
      [{ mode := "payment"
         payment_method_types := ["card"]
         line_items := [{
           price_data := {
             currency := "eur"
             product_data :=
               { name := jsToString (applyDefault b.name (.str "Test Product")) }
             unit_amount := applyDefault b.price (.num 1500) }
           quantity := applyDefault b.quantity (.num 1) }]
         success_url := config.frontendBaseUrl ++
           "/success?session_id=\x7bCHECKOUT_SESSION_ID\x7d"
         cancel_url := config.frontendBaseUrl ++ "/cancelled" }] := by
  have key : (createSession provider config (some b)).2 =
      [buildDescriptor config (applyDefault b.price (.num 1500))
        (applyDefault b.quantity (.num 1))
        (applyDefault b.name (.str "Test Product"))] := by
    cases hp : provider (buildDescriptor config (applyDefault b.price (.num 1500))
        (applyDefault b.quantity (.num 1))
        (applyDefault b.name (.str "Test Product"))) <;>
      simp [createSession, h, hp]
  rw [key]
  rfl

/-- Witness for C3 at input price 2000, quantity 2, name "Widget" against a
stub returning url "X": the stub receives unit_amount 2000, quantity 2,
product name "Widget", and the handler returns that URL. -/
theorem descriptor_shape_for_valid_input_witness :
    priceCheckFails (applyDefault (JSValue.num 2000) (.num 1500)) = false ∧
    (createSession (providerOk "X") testConfig
        (some ⟨.num 2000, .num 2, .str "Widget"⟩)).2 =
      [{ mode := "payment"
         payment_method_types := ["card"]
         line_items := [{
           price_data := {
             currency := "eur"
             product_data := { name := "Widget" }
             unit_amount := .num 2000 }
           quantity := .num 2 }]
         success_url :=
           "http://localhost:3000/success?session_id=\x7bCHECKOUT_SESSION_ID\x7d"
         cancel_url := "http://localhost:3000/cancelled" }] ∧
    (createSession (providerOk "X") testConfig
        (some ⟨.num 2000, .num 2, .str "Widget"⟩)).1 = .success "X" :=
  ⟨by decide,
   (descriptor_shape_for_valid_input (providerOk "X") testConfig
     ⟨.num 2000, .num 2, .str "Widget"⟩ (by decide)).trans (by decide),
   by decide⟩

/-- C4: calling the handler with an empty input substitutes every documented
default: the provider receives a descriptor with unit amount 1500, quantity
1 and product name "Test Product". -/
theorem empty_input_defaults (provider : Provider) (config : Config) :
    (createSession provider config none).2 =
      [buildDescriptor config (.num 1500) (.num 1) (.str "Test Product")] ∧
    (buildDescriptor config (.num 1500) (.num 1) (.str "Test Product")).line_items =
      [{ price_data := {
           currency := "eur"
           product_data := { name := "Test Product" }
           unit_amount := .num 1500 }
         quantity := .num 1 }] := by
  have hc : priceCheckFails (applyDefault JSValue.undef (.num 1500)) = false := by
    decide
  refine ⟨?_, rfl⟩
  cases hp : provider (buildDescriptor config (.num 1500) (.num 1)
      (.str "Test Product")) <;>
    simp [createSession, applyDefault, hc, hp] <;> rfl

/-- C5: when the provider call succeeds with a session whose url is `u`, the
handler returns success with exactly that URL, unmodified. -/
theorem success_url_passthrough (config : Config) (b : RequestBody) (u : String)
    (h : priceCheckFails (applyDefault b.price (.num 1500)) = false) :
    (createSession (providerOk u) config (some b)).1 = .success u := by
  simp [createSession, h, providerOk]

/-- Witness for C5: a stub returning url
"https://payments.example/session/abc" yields success with that exact URL. -/
theorem success_url_passthrough_witness :
    priceCheckFails (applyDefault JSValue.undef (.num 1500)) = false ∧
    (createSession (providerOk "https://payments.example/session/abc")
        testConfig (some ⟨.undef, .undef, .undef⟩)).1 =
      .success "https://payments.example/session/abc" :=
  ⟨by decide,
   success_url_passthrough testConfig ⟨.undef, .undef, .undef⟩
     "https://payments.example/session/abc" (by decide)⟩

/-- C6: price 1 passes validation (minimum positive integer), while price 0
and price -1 are both rejected, with the identical error message. -/
theorem price_boundary_cases :
    (createSession (providerOk "u") testConfig
        (some ⟨.num 1, .undef, .undef⟩)).1 = .success "u" ∧
    (createSession (providerOk "u") testConfig
        (some ⟨.num 0, .undef, .undef⟩)).1 =
      .failure 400 "price must be a positive integer (in cents)" ∧
    (createSession (providerOk "u") testConfig
        (some ⟨.num (-1), .undef, .undef⟩)).1 =
      .failure 400 "price must be a positive integer (in cents)" := by
  decide

/-- Counterexample to C7: with the non-integer quantity 5/2 (JSON `2.5`) the
descriptor handed to the provider still carries 5/2 — the handler performs no
integer coercion on quantity before placing it in the descriptor. -/
theorem quantity_not_coerced_counterexample :
    ((createSession (providerOk "u") testConfig
        (some ⟨.num 2000, .num (mkRat 5 2), .str "W"⟩)).2.map
      fun d => d.line_items.map fun li => li.quantity) =
      [[JSValue.num (mkRat 5 2)]] ∧
    jsIsInteger (JSValue.num (mkRat 5 2)) = false := by
  decide

/-- C7 (amended): if `input.quantity` is present it is placed in the provider
descriptor unchanged — no coercion of any kind is applied; the default 1 is
substituted only when it is absent. -/
theorem quantity_forwarded_unchanged (provider : Provider) (config : Config)
    (b : RequestBody)
    (h : priceCheckFails (applyDefault b.price (.num 1500)) = false) :
    ((createSession provider config (some b)).2.map
      fun d => d.line_items.map fun li => li.quantity) =
      [[applyDefault b.quantity (.num 1)]] := by
  have key : (createSession provider config (some b)).2 =
      [buildDescriptor config (applyDefault b.price (.num 1500))
        (applyDefault b.quantity (.num 1))
        (applyDefault b.name (.str "Test Product"))] := by
    cases hp : provider (buildDescriptor config (applyDefault b.price (.num 1500))
        (applyDefault b.quantity (.num 1))
        (applyDefault b.name (.str "Test Product"))) <;>
      simp [createSession, h, hp]
  rw [key]
  rfl

/-- Witness for C7 (amended) at the present quantity 3: the descriptor
carries exactly 3. -/
theorem quantity_forwarded_unchanged_witness :
    priceCheckFails (applyDefault (JSValue.num 2000) (.num 1500)) = false ∧
    ((createSession (providerOk "u") testConfig
        (some ⟨.num 2000, .num 3, .str "W"⟩)).2.map
      fun d => d.line_items.map fun li => li.quantity) = [[JSValue.num 3]] :=
  ⟨by decide,
   (quantity_forwarded_unchanged (providerOk "u") testConfig
     ⟨.num 2000, .num 3, .str "W"⟩ (by decide)).trans (by decide)⟩

/-- C8: validation is a pure function of the input: for a malformed input the
outcome is the same fixed 400 message on every invocation, whatever the
provider or configuration of each run — no hidden state. -/
theorem validation_deterministic (p₁ p₂ : Provider) (config₁ config₂ : Config)
    (b : RequestBody)
    (h : priceCheckFails (applyDefault b.price (.num 1500)) = true) :
    (createSession p₁ config₁ (some b)).1 = (createSession p₂ config₂ (some b)).1 ∧
    (createSession p₁ config₁ (some b)).1 =
      .failure 400 "price must be a positive integer (in cents)" := by
  simp [createSession, h]

/-- Witness for C8: two invocations on price 0, with different providers and
the same rejection message both times. -/
theorem validation_deterministic_witness :
    priceCheckFails (applyDefault (JSValue.num 0) (.num 1500)) = true ∧
    ((createSession (providerOk "a") testConfig
        (some ⟨.num 0, .undef, .undef⟩)).1 =
      (createSession (providerErr "b") testConfig
        (some ⟨.num 0, .undef, .undef⟩)).1 ∧
     (createSession (providerOk "a") testConfig
        (some ⟨.num 0, .undef, .undef⟩)).1 =
      .failure 400 "price must be a positive integer (in cents)") :=
  ⟨by decide,
   validation_deterministic (providerOk "a") (providerErr "b") testConfig
     testConfig ⟨.num 0, .undef, .undef⟩ (by decide)⟩

/-- C9: a 400 response can only arise from the price check: whenever the
handler returns a failure with status 400, its message is the fixed price
message and the substituted price failed the check — name and quantity, of
any type whatsoever, never cause a local validation failure. -/
theorem only_price_check_yields_400 (provider : Provider) (config : Config)
    (priceV quantityV nameV : JSValue) (e : String)
    (h : (createSession provider config
        (some ⟨priceV, quantityV, nameV⟩)).1 = .failure 400 e) :
    e = "price must be a positive integer (in cents)" ∧
    priceCheckFails (applyDefault priceV (.num 1500)) = true := by
  rcases hc : priceCheckFails (applyDefault priceV (.num 1500)) with _ | _
  · exfalso
    cases hp : provider (buildDescriptor config (applyDefault priceV (.num 1500))
        (applyDefault quantityV (.num 1))
        (applyDefault nameV (.str "Test Product"))) <;>
      simp [createSession, hc, hp] at h
  · refine ⟨?_, rfl⟩
    simp [createSession, hc] at h
    exact h.symm

/-- Witness for C9 at a string-typed price with a succeeding provider stub:
the 400 that results is the price-check rejection. -/
theorem only_price_check_yields_400_witness :
    ((createSession (providerOk "u") testConfig
        (some ⟨.str "x", .bool true, .null⟩)).1 =
      .failure 400 "price must be a positive integer (in cents)") ∧
    ("price must be a positive integer (in cents)" =
        "price must be a positive integer (in cents)" ∧
      priceCheckFails (applyDefault (JSValue.str "x") (.num 1500)) = true) :=
  ⟨by decide,
   only_price_check_yields_400 (providerOk "u") testConfig
     (.str "x") (.bool true) .null
     "price must be a positive integer (in cents)" (by decide)⟩

/-- C10: defaults are substituted only for absent (undefined) fields, not for
`null`: a request whose price is explicitly `null` is not defaulted to 1500
but rejected with the 400 validation failure (and no provider call), and
`null` quantity and name values are likewise kept, not defaulted. -/
theorem null_not_defaulted (provider : Provider) (config : Config)
    (quantityV nameV : JSValue) :
    createSession provider config (some ⟨.null, quantityV, nameV⟩) =
      (.failure 400 "price must be a positive integer (in cents)", []) ∧
    applyDefault .null (.num 1500) = .null ∧
    applyDefault .null (.num 1) = .null ∧
    applyDefault .null (.str "Test Product") = .null := by
  refine ⟨?_, by decide, by decide, by decide⟩
  simp [createSession, applyDefault, priceCheckFails, jsIsInteger]
